import Mathlib

/-!
Verification of the access-control resolution core of the fresh-desk-api
repository (scripts/get_incident_counts.py, data/csv_loader.py,
incident_dashboard.py), shallowly embedded in Lean 4.

Modelling conventions:
* A CSV cell that the Python code strips and then parses with `int(...)`
  (resp. `float(...)`) is embedded as an `Option Int` (resp. `Option ℚ`):
  `some n` when the stripped string is non-empty and the parse succeeds with
  value `n`, `none` when the cell is empty or the parse raises `ValueError`.
  The only observable property of such a cell in the source is whether the
  parse succeeds and which number it yields.
* Python `None` returns are embedded as `Option.none`; Python sets of ints
  as `Finset Int`; Python dicts as association lists with first-occurrence
  key positions and value overwrite (`dictInsert` below), matching Python
  insertion-order dict semantics.
* `logger.warning` calls are counted (the loaders return a warning count
  alongside their result) so that "one warning logged" is statable.
-/

namespace FreshDesk

/-- One row of `acl.csv` as read by `load_user_acl` in
`scripts/get_incident_counts.py`: fields are the stripped `User` and
`AccessLevel` cells, and the result of `int()` on the stripped `Id` cell
(`none` when the cell is empty or unparseable). -/
structure AclRow where
  user : String
  accessLevel : String
  idValue : Option Int
deriving DecidableEq, Repr

/-- `load_user_acl(username, filename)` from `scripts/get_incident_counts.py`
(lines 112-142), over the list of CSV rows: keeps, in file order, the pairs
`(access_level, int(id_value))` of the rows whose `User` equals `username`
and whose `AccessLevel` and `Id` cells are non-empty and whose `Id` parses. -/
def load_user_acl (username : String) (rows : List AclRow) : List (String × Int) :=
  rows.filterMap (fun row =>
    match row.idValue with
    | some n => if row.user = username ∧ row.accessLevel ≠ "" then some (row.accessLevel, n) else none
    | none => none)

/-- The body of the `for access_level, id_value in user_acl` loop of
`get_allowed_department_ids` (lines 165-172 of
`scripts/get_incident_counts.py`): one grant's update of the accumulated
`allowed_dept_ids` set.  `"Perimeter"` grants union in the perimeter's
department list when the perimeter id is a key of `perimeter_map` (and add
nothing otherwise); `"Business Unit"` grants add the raw id; any other
access-level token leaves the set unchanged. -/
def grantStep (perimeter_map : List (Int × List Int))
    (s : Finset Int) (g : String × Int) : Finset Int :=
  if g.1 = "Perimeter" then
    match perimeter_map.lookup g.2 with
    | some depts => s ∪ depts.toFinset
    | none => s
  else if g.1 = "Business Unit" then
    s ∪ {g.2}
  else s

/-- `get_allowed_department_ids(username, perimeter_map, dept_map)` from
`scripts/get_incident_counts.py` (lines 145-174).  `perimeter_map` is the
Python dict mapping perimeter ids to lists of department ids (association
list, keys unique by construction in `load_perimeters`); `dept_map` is
passed but, exactly as in the source, never used.  Returns `none` (Python
`None`, the UNRESTRICTED sentinel) when the user's ACL is empty or the
accumulated union is empty, otherwise `some` of the union. -/
def get_allowed_department_ids (username : String)
    (perimeter_map : List (Int × List Int)) (dept_map : List (Int × String))
    (aclRows : List AclRow) : Option (Finset Int) :=
  let user_acl := load_user_acl username aclRows
  if user_acl = [] then
    none
  else
    let allowed_dept_ids := user_acl.foldl (grantStep perimeter_map) ∅
    if allowed_dept_ids = ∅ then none else some allowed_dept_ids

/-- Specification-side contribution of a single grant: what one iteration of
the resolver loop unions into the accumulator.  A `"Perimeter"` grant
contributes the perimeter's department list (empty when the perimeter id is
not a key of `perimeter_map`); a `"Business Unit"` grant contributes the
singleton of its raw id; an unrecognized token contributes nothing. -/
def grantContribution (perimeter_map : List (Int × List Int))
    (g : String × Int) : Finset Int :=
  if g.1 = "Perimeter" then ((perimeter_map.lookup g.2).getD []).toFinset
  else if g.1 = "Business Unit" then {g.2}
  else ∅

/-- Specification-side union over a grant list: the union of the individual
grant contributions. -/
def aclUnion (perimeter_map : List (Int × List Int))
    (user_acl : List (String × Int)) : Finset Int :=
  (user_acl.map (grantContribution perimeter_map)).foldr (· ∪ ·) ∅

lemma grantStep_eq_union (perimeter_map : List (Int × List Int))
    (s : Finset Int) (g : String × Int) :
    grantStep perimeter_map s g = s ∪ grantContribution perimeter_map g := by
  unfold grantStep grantContribution
  by_cases h1 : g.1 = "Perimeter"
  · simp only [h1, if_pos rfl]
    cases hl : perimeter_map.lookup g.2 <;> simp
  · by_cases h2 : g.1 = "Business Unit" <;> simp [h1, h2]

lemma foldl_grantStep (perimeter_map : List (Int × List Int))
    (user_acl : List (String × Int)) :
    ∀ s : Finset Int, user_acl.foldl (grantStep perimeter_map) s =
      s ∪ aclUnion perimeter_map user_acl := by
  induction user_acl with
  | nil => intro s; simp [aclUnion]
  | cons g rest ih =>
    intro s
    simp only [List.foldl_cons, ih, grantStep_eq_union, aclUnion, List.map_cons,
      List.foldr_cons]
    rw [Finset.union_assoc]

lemma aclUnion_eq_empty (perimeter_map : List (Int × List Int))
    (l : List (String × Int))
    (h : ∀ g ∈ l, grantContribution perimeter_map g = ∅) :
    aclUnion perimeter_map l = ∅ := by
  induction l with
  | nil => simp [aclUnion]
  | cons g rest ih =>
    unfold aclUnion at ih ⊢
    simp only [List.map_cons, List.foldr_cons]
    rw [h g (List.mem_cons_self g rest), ih (fun x hx => h x (List.mem_cons_of_mem g hx))]
    simp

lemma get_allowed_empty_acl (username : String)
    (perimeter_map : List (Int × List Int)) (dept_map : List (Int × String))
    (aclRows : List AclRow)
    (h : load_user_acl username aclRows = []) :
    get_allowed_department_ids username perimeter_map dept_map aclRows = none := by
  unfold get_allowed_department_ids
  simp [h]

lemma get_allowed_eq_union (username : String)
    (perimeter_map : List (Int × List Int)) (dept_map : List (Int × String))
    (aclRows : List AclRow) (h : load_user_acl username aclRows ≠ []) :
    get_allowed_department_ids username perimeter_map dept_map aclRows =
      (if aclUnion perimeter_map (load_user_acl username aclRows) = ∅ then none
       else some (aclUnion perimeter_map (load_user_acl username aclRows))) := by
  unfold get_allowed_department_ids
  simp only [if_neg h, foldl_grantStep, Finset.empty_union]

end FreshDesk

namespace FreshDesk

/-- C1: for every user whose ACL lookup yields an empty grant list,
`get_allowed_department_ids` returns the no-filtering sentinel (`None`). -/
theorem C1_empty_grants_unrestricted (username : String)
    (perimeter_map : List (Int × List Int)) (dept_map : List (Int × String))
    (aclRows : List AclRow)
    (h : load_user_acl username aclRows = []) :
    get_allowed_department_ids username perimeter_map dept_map aclRows = none :=
  get_allowed_empty_acl username perimeter_map dept_map aclRows h

/-- Witness for C1 at a concrete input: a one-row ACL file whose only row
belongs to a different user. -/
theorem C1_empty_grants_unrestricted_witness :
    load_user_acl "alice" [⟨"bob", "Perimeter", some 1⟩] = [] ∧
    get_allowed_department_ids "alice" [(1, [2, 3])] [(2, "IT")]
      [⟨"bob", "Perimeter", some 1⟩] = none := by
  refine ⟨by decide, ?_⟩
  exact C1_empty_grants_unrestricted "alice" [(1, [2, 3])] [(2, "IT")]
    [⟨"bob", "Perimeter", some 1⟩] (by decide)

end FreshDesk

namespace FreshDesk

/-- C2: for every user whose grants are exclusively perimeter-scoped and
every referenced perimeter id is absent from the perimeter map, the resolver
returns the UNRESTRICTED sentinel (`None`) via the empty-union fallback
rather than an empty allow-set. -/
theorem C2_dangling_perimeters_unrestricted (username : String)
    (perimeter_map : List (Int × List Int)) (dept_map : List (Int × String))
    (aclRows : List AclRow)
    (h : ∀ g ∈ load_user_acl username aclRows,
      g.1 = "Perimeter" ∧ perimeter_map.lookup g.2 = none) :
    get_allowed_department_ids username perimeter_map dept_map aclRows = none := by
  by_cases hempty : load_user_acl username aclRows = []
  · exact get_allowed_empty_acl username perimeter_map dept_map aclRows hempty
  · rw [get_allowed_eq_union username perimeter_map dept_map aclRows hempty]
    have hunion : aclUnion perimeter_map (load_user_acl username aclRows) = ∅ := by
      refine aclUnion_eq_empty perimeter_map _ (fun g hg => ?_)
      have := h g hg
      unfold grantContribution
      simp [this.1, this.2]
    simp [hunion]

/-- Witness for C2: a user with two perimeter grants, both to perimeter ids
absent from the perimeter map. -/
theorem C2_dangling_perimeters_unrestricted_witness :
    (∀ g ∈ load_user_acl "dave"
        [⟨"dave", "Perimeter", some 8⟩, ⟨"dave", "Perimeter", some 9⟩],
      g.1 = "Perimeter" ∧ ([(1, [2, 3])] : List (Int × List Int)).lookup g.2 = none) ∧
    get_allowed_department_ids "dave" [(1, [2, 3])] [(2, "IT")]
      [⟨"dave", "Perimeter", some 8⟩, ⟨"dave", "Perimeter", some 9⟩] = none := by
  refine ⟨by decide, ?_⟩
  exact C2_dangling_perimeters_unrestricted "dave" [(1, [2, 3])] [(2, "IT")]
    [⟨"dave", "Perimeter", some 8⟩, ⟨"dave", "Perimeter", some 9⟩] (by decide)

/-- C3: for a user holding exactly one department-scoped grant (access-level
token `"Business Unit"`) with id `d`, the resolver returns `some {d}`.  The
statement quantifies over an arbitrary `dept_map`, so it holds in particular
when `d` is not a key of the department map: the raw id is inserted without
checking that it resolves to a known department. -/
theorem C3_single_department_grant (username : String)
    (perimeter_map : List (Int × List Int)) (dept_map : List (Int × String))
    (aclRows : List AclRow) (d : Int)
    (h : load_user_acl username aclRows = [("Business Unit", d)]) :
    get_allowed_department_ids username perimeter_map dept_map aclRows =
      some {d} := by
  rw [get_allowed_eq_union username perimeter_map dept_map aclRows (by simp [h])]
  rw [h]
  unfold aclUnion grantContribution
  simp

/-- Witness for C3: user `erin` has one `"Business Unit"` grant with id 42,
and 42 is not a key of the department map `[(2, "IT")]`; the resolver still
returns `{42}`. -/
theorem C3_single_department_grant_witness :
    load_user_acl "erin" [⟨"erin", "Business Unit", some 42⟩] =
      [("Business Unit", 42)] ∧
    get_allowed_department_ids "erin" [(1, [2, 3])] [(2, "IT")]
      [⟨"erin", "Business Unit", some 42⟩] = some {42} := by
  refine ⟨by decide, ?_⟩
  exact C3_single_department_grant "erin" [(1, [2, 3])] [(2, "IT")]
    [⟨"erin", "Business Unit", some 42⟩] 42 (by decide)

/-- C4: for every user with a non-empty grant list, the resolver's result is
the union over the grants of the `perimeter_map` lookup for `"Perimeter"`
grants (empty contribution when the perimeter id is unknown) and the
singleton id for `"Business Unit"` grants, with the empty-union fallback to
`None`; in particular (see the witness) a user with a `"Perimeter"` grant to
`p ↦ {1, 2}` and a `"Business Unit"` grant to 3 resolves to `{1, 2, 3}`. -/
theorem C4_union_of_grants (username : String)
    (perimeter_map : List (Int × List Int)) (dept_map : List (Int × String))
    (aclRows : List AclRow) (h : load_user_acl username aclRows ≠ []) :
    get_allowed_department_ids username perimeter_map dept_map aclRows =
      (if aclUnion perimeter_map (load_user_acl username aclRows) = ∅ then none
       else some (aclUnion perimeter_map (load_user_acl username aclRows))) :=
  get_allowed_eq_union username perimeter_map dept_map aclRows h

/-- Witness for C4, instantiating the union property of the spec: perimeter
7 maps to departments `{1, 2}`, and user `frank` holds a `"Perimeter"` grant
to 7 and a `"Business Unit"` grant to 3; the resolver returns `{1, 2, 3}`. -/
theorem C4_union_of_grants_witness :
    load_user_acl "frank"
        [⟨"frank", "Perimeter", some 7⟩, ⟨"frank", "Business Unit", some 3⟩] ≠ [] ∧
    get_allowed_department_ids "frank" [(7, [1, 2])] [(2, "IT")]
      [⟨"frank", "Perimeter", some 7⟩, ⟨"frank", "Business Unit", some 3⟩] =
        some {1, 2, 3} := by
  refine ⟨by decide, ?_⟩
  rw [C4_union_of_grants "frank" [(7, [1, 2])] [(2, "IT")]
    [⟨"frank", "Perimeter", some 7⟩, ⟨"frank", "Business Unit", some 3⟩] (by decide)]
  decide

/-- C9: a grant whose access-level token is neither `"Perimeter"` nor
`"Business Unit"` (for example `"P"` or `"D"`) leaves the resolver's
accumulated set unchanged, and a user all of whose grants carry such
unrecognized tokens resolves to the UNRESTRICTED sentinel via the
empty-union fallback. -/
theorem C9_unrecognized_tokens_unrestricted (username : String)
    (perimeter_map : List (Int × List Int)) (dept_map : List (Int × String))
    (aclRows : List AclRow)
    (h : ∀ g ∈ load_user_acl username aclRows,
      g.1 ≠ "Perimeter" ∧ g.1 ≠ "Business Unit") :
    (∀ g ∈ load_user_acl username aclRows, ∀ s : Finset Int,
      grantStep perimeter_map s g = s) ∧
    get_allowed_department_ids username perimeter_map dept_map aclRows = none := by
  constructor
  · intro g hg s
    have := h g hg
    unfold grantStep
    simp [this.1, this.2]
  · by_cases hempty : load_user_acl username aclRows = []
    · exact get_allowed_empty_acl username perimeter_map dept_map aclRows hempty
    · rw [get_allowed_eq_union username perimeter_map dept_map aclRows hempty]
      have hunion : aclUnion perimeter_map (load_user_acl username aclRows) = ∅ := by
        refine aclUnion_eq_empty perimeter_map _ (fun g hg => ?_)
        have := h g hg
        unfold grantContribution
        simp [this.1, this.2]
      simp [hunion]

/-- Witness for C9: user `gina` holds grants with the abbreviated tokens
`"P"` and `"D"`, which the resolver does not recognize; the result is the
UNRESTRICTED sentinel and each grant leaves a sample accumulator
unchanged. -/
theorem C9_unrecognized_tokens_unrestricted_witness :
    (∀ g ∈ load_user_acl "gina" [⟨"gina", "P", some 7⟩, ⟨"gina", "D", some 3⟩],
      g.1 ≠ "Perimeter" ∧ g.1 ≠ "Business Unit") ∧
    ((∀ g ∈ load_user_acl "gina" [⟨"gina", "P", some 7⟩, ⟨"gina", "D", some 3⟩],
        ∀ s : Finset Int, grantStep [(7, [1, 2])] s g = s) ∧
      get_allowed_department_ids "gina" [(7, [1, 2])] [(2, "IT")]
        [⟨"gina", "P", some 7⟩, ⟨"gina", "D", some 3⟩] = none) := by
  refine ⟨by decide, ?_⟩
  exact C9_unrecognized_tokens_unrestricted "gina" [(7, [1, 2])] [(2, "IT")]
    [⟨"gina", "P", some 7⟩, ⟨"gina", "D", some 3⟩] (by decide)

end FreshDesk

namespace FreshDesk

/-- One ticket record as seen by the department-filter fragment of
`get_incident_count` (`scripts/get_incident_counts.py`, lines 238-244):
`department_id` is `ticket.get('department_id')`, which is `None` (here
`none`) when the field is missing or null. -/
structure TicketRec where
  department_id : Option Int
deriving DecidableEq, Repr

/-- Lines 238-242 of `scripts/get_incident_counts.py`, as the per-ticket
predicate they implement: when `allowed_dept_ids` is Python `None` the
ticket is kept; otherwise the ticket is kept exactly when
`ticket.get('department_id')` is a member of the set.  A missing or null
`department_id` is the Python value `None`, which is never a member of a
set of ints, so the `continue` fires and the ticket is excluded. -/
def passes_department_filter (allowed_dept_ids : Option (Finset Int))
    (t : TicketRec) : Bool :=
  match allowed_dept_ids with
  | none => true
  | some s =>
    match t.department_id with
    | some d => d ∈ s
    | none => false

/-- The consumer department filter of spec §4.4 over a collection of
records, realized by the `continue`-guard of `get_incident_count`: the
records that survive lines 238-242. -/
def department_filter (allowed_dept_ids : Option (Finset Int))
    (records : List TicketRec) : List TicketRec :=
  records.filter (passes_department_filter allowed_dept_ids)

end FreshDesk

namespace FreshDesk

/-- C6: the consumer filter keeps all records when the access is
UNRESTRICTED (`none`); when restricted to a set `s` it keeps exactly the
records whose `department_id` is `some d` with `d ∈ s`, and every record
with a missing or null `department_id` is excluded. -/
theorem C6_consumer_filter_contract (records : List TicketRec) (s : Finset Int) :
    department_filter none records = records ∧
    (∀ r, r ∈ department_filter (some s) records ↔
      r ∈ records ∧ ∃ d, r.department_id = some d ∧ d ∈ s) ∧
    (∀ r ∈ department_filter (some s) records, r.department_id ≠ none) := by
  refine ⟨?_, ?_, ?_⟩
  · simp [department_filter, passes_department_filter]
  · intro r
    simp only [department_filter, List.mem_filter, passes_department_filter]
    constructor
    · rintro ⟨hr, hp⟩
      refine ⟨hr, ?_⟩
      cases hd : r.department_id with
      | none => rw [hd] at hp; simp at hp
      | some d =>
        rw [hd] at hp
        exact ⟨d, rfl, by simpa using hp⟩
    · rintro ⟨hr, d, hd, hds⟩
      exact ⟨hr, by simp [hd, hds]⟩
  · intro r hr
    simp only [department_filter, List.mem_filter, passes_department_filter] at hr
    cases hd : r.department_id with
    | none => rw [hd] at hr; simp at hr
    | some d => simp [hd]

/-- Witness for C6 at a concrete input: three records (department 1,
department 9, missing department), restricted to `{1}`. -/
theorem C6_consumer_filter_contract_witness :
    department_filter none [⟨some 1⟩, ⟨some 9⟩, ⟨none⟩] =
      [⟨some 1⟩, ⟨some 9⟩, ⟨none⟩] ∧
    ((⟨some 1⟩ : TicketRec) ∈
      department_filter (some {1}) [⟨some 1⟩, ⟨some 9⟩, ⟨none⟩] ↔
      (⟨some 1⟩ : TicketRec) ∈ ([⟨some 1⟩, ⟨some 9⟩, ⟨none⟩] : List TicketRec) ∧
        ∃ d, (some 1 : Option Int) = some d ∧ d ∈ ({1} : Finset Int)) := by
  refine ⟨(C6_consumer_filter_contract [⟨some 1⟩, ⟨some 9⟩, ⟨none⟩] {1}).1, ?_⟩
  exact (C6_consumer_filter_contract [⟨some 1⟩, ⟨some 9⟩, ⟨none⟩] {1}).2.1 ⟨some 1⟩

/-- C7: the consumer department filter is idempotent: filtering an already
filtered collection with the same `EffectiveAccess` changes nothing. -/
theorem C7_filter_idempotent (allowed_dept_ids : Option (Finset Int))
    (records : List TicketRec) :
    department_filter allowed_dept_ids (department_filter allowed_dept_ids records) =
      department_filter allowed_dept_ids records := by
  unfold department_filter
  rw [List.filter_filter]
  simp

end FreshDesk

namespace FreshDesk

/-- One row of `acl.csv` as read by `CSVLoader.load_acls` in
`data/csv_loader.py`: the stripped `User` and `AccessLevel` cells (Python
`strip()` is idempotent, so carrying the stripped cell loses nothing) and
the result of `float()` on the `Id` cell (`none` when that parse raises
`ValueError`). -/
structure CsvAclRow where
  user : String
  accessLevel : String
  idValue : Option ℚ
deriving DecidableEq, Repr

/-- `CSVLoader.load_acls` from `data/csv_loader.py` (lines 119-164), over
the list of CSV rows (headers already validated): each parseable row yields
a dict `{user, access_level, id}` where `access_level` is `'P'` when the
stripped raw token equals `"Perimeter"` and `'D'` for every other token;
a row whose `Id` fails to parse is skipped with one `logger.warning`
(counted in the second component). -/
def CSVLoader_load_acls (rows : List CsvAclRow) :
    List (String × String × ℚ) × Nat :=
  rows.foldl (fun acc row =>
    match row.idValue with
    | some q =>
      (acc.1 ++ [(row.user,
        if row.accessLevel = "Perimeter" then "P" else "D", q)], acc.2)
    | none => (acc.1, acc.2 + 1)) ([], 0)

end FreshDesk

namespace FreshDesk

/-- C5 (divergence of the code from the token-normalization requirement):
the two token conventions do not produce identical results.  For identical
grant tables differing only in the token spelling, `"Business Unit"` vs
`"D"` for the same `(alice, 3)` row, the resolver returns `{3}` under the
first convention but the UNRESTRICTED sentinel under the second; likewise
`"Perimeter"` vs `"P"` for the same `(bob, 7)` row yields `{1, 2}` vs the
sentinel.  Moreover `CSVLoader.load_acls`, the only normalization present
in the code, maps the abbreviated token `"P"` to `'D'`, so it does not
normalize the two conventions to the same internal representation
either. -/
theorem C5_token_conventions_diverge :
    get_allowed_department_ids "alice" [(7, [1, 2])] [(2, "IT")]
        [⟨"alice", "Business Unit", some 3⟩] = some {3} ∧
    get_allowed_department_ids "alice" [(7, [1, 2])] [(2, "IT")]
        [⟨"alice", "D", some 3⟩] = none ∧
    get_allowed_department_ids "bob" [(7, [1, 2])] [(2, "IT")]
        [⟨"bob", "Perimeter", some 7⟩] = some {1, 2} ∧
    get_allowed_department_ids "bob" [(7, [1, 2])] [(2, "IT")]
        [⟨"bob", "P", some 7⟩] = none ∧
    (CSVLoader_load_acls [⟨"carol", "P", some 7⟩]).1 = [("carol", "D", 7)] ∧
    (CSVLoader_load_acls [⟨"carol", "Perimeter", some 7⟩]).1 =
      [("carol", "P", 7)] := by
  refine ⟨by decide, by decide, by decide, by decide, by decide, by decide⟩

end FreshDesk

namespace FreshDesk

/-- One row of `departments.csv` as read by `load_departments` in
`scripts/get_incident_counts.py`: `id` is the result of `int()` on the
stripped `ID` cell (`none` when the cell is empty or unparseable), `name`
the stripped `Name` cell. -/
structure DeptRow where
  id : Option Int
  name : String
deriving DecidableEq, Repr

/-- Python dict assignment `d[k] = v` on an insertion-ordered association
list: an existing key keeps its position and gets the new value, a fresh
key is appended. -/
def dictInsert (m : List (Int × String)) (k : Int) (v : String) :
    List (Int × String) :=
  if m.any (fun p => p.1 == k) then m.map (fun p => if p.1 == k then (k, v) else p)
  else m ++ [(k, v)]

/-- The body of the row loop of `load_departments`
(`scripts/get_incident_counts.py`, lines 65-72): a row with non-empty `ID`
and `Name` cells whose `ID` parses as an int is entered into the dict; any
other row is skipped silently (`pass`). -/
def deptStep (m : List (Int × String)) (row : DeptRow) : List (Int × String) :=
  match row.id with
  | some i => if row.name ≠ "" then dictInsert m i row.name else m
  | none => m

/-- `load_departments(filename)` from `scripts/get_incident_counts.py`
(lines 47-74), over the list of CSV rows: folds the rows into the
`dept_map` dict starting from the empty dict. -/
def load_departments (rows : List DeptRow) : List (Int × String) :=
  rows.foldl deptStep []

/-- The row loop of the script-side `load_departments` with the number of
warnings it logs threaded alongside the dict.  The loop body
(`scripts/get_incident_counts.py`, lines 65-72) contains no logging call: a
malformed row is skipped by `pass  # Skip invalid IDs` and a row with an
empty cell fails the `if` guard silently, so no branch increments the
count. -/
def deptStepW (acc : List (Int × String) × Nat) (row : DeptRow) :
    List (Int × String) × Nat :=
  (deptStep acc.1 row, acc.2)

/-- `load_departments` from `scripts/get_incident_counts.py` together with
the number of warnings its row loop logs (the only warning in the function
concerns a missing file, before the loop). -/
def load_departments_w (rows : List DeptRow) : List (Int × String) × Nat :=
  rows.foldl deptStepW ([], 0)

/-- One row of `departments.csv` as read by `CSVLoader.load_departments` in
`data/csv_loader.py` (headers already validated): `id` is the result of
`float()` on the `ID` cell (`none` when that parse raises `ValueError`),
`name` the stripped `Name` cell. -/
structure CsvDeptRow where
  id : Option ℚ
  name : String
deriving DecidableEq, Repr

/-- The body of the row loop of `CSVLoader.load_departments`
(`data/csv_loader.py`, lines 53-62): a parseable row appends the dict
`{id, name}` to the result list; a row whose `ID` fails to parse is skipped
with one `logger.warning` (counted in the second component). -/
def csvDeptStep (acc : List (ℚ × String) × Nat) (row : CsvDeptRow) :
    List (ℚ × String) × Nat :=
  match row.id with
  | some q => (acc.1 ++ [(q, row.name)], acc.2)
  | none => (acc.1, acc.2 + 1)

/-- `CSVLoader.load_departments` from `data/csv_loader.py` (lines 26-69),
over the list of CSV rows: returns the list of loaded department dicts
together with the number of warnings logged for skipped rows. -/
def CSVLoader_load_departments (rows : List CsvDeptRow) :
    List (ℚ × String) × Nat :=
  rows.foldl csvDeptStep ([], 0)

lemma dictInsert_fresh (m : List (Int × String)) (k : Int) (v : String)
    (h : ∀ p ∈ m, p.1 ≠ k) : dictInsert m k v = m ++ [(k, v)] := by
  unfold dictInsert
  rw [if_neg]
  simp only [List.any_eq_true, beq_iff_eq, not_exists, not_and]
  exact fun p hp => h p hp

lemma deptStep_bad (m : List (Int × String)) (row : DeptRow)
    (h : row.id = none ∨ row.name = "") : deptStep m row = m := by
  unfold deptStep
  rcases h with h | h
  · rw [h]
  · cases hid : row.id with
    | none => rfl
    | some i => simp [h]

lemma load_valid_aux : ∀ (l : List DeptRow) (m : List (Int × String)),
    (∀ r ∈ l, ∃ i, r.id = some i ∧ r.name ≠ "" ∧ ∀ p ∈ m, p.1 ≠ i) →
    (l.map (fun r => r.id)).Nodup →
    (l.foldl deptStep m).length = m.length + l.length := by
  intro l
  induction l with
  | nil => intro m _ _; simp
  | cons r rest ih =>
    intro m h hnodup
    obtain ⟨i, hid, hname, hfresh⟩ := h r (List.mem_cons_self r rest)
    have hstep : deptStep m r = m ++ [(i, r.name)] := by
      unfold deptStep
      rw [hid]
      simp only [hname, ne_eq, not_false_eq_true, if_true]
      exact dictInsert_fresh m i r.name hfresh
    simp only [List.foldl_cons, hstep]
    have hnodup' : (rest.map (fun r => r.id)).Nodup := by
      simpa using hnodup.of_cons
    have hhead : (some i : Option Int) ∉ rest.map (fun r => r.id) := by
      have := hnodup
      simp only [List.map_cons, List.nodup_cons] at this
      rw [hid] at this
      exact this.1
    have h' : ∀ r' ∈ rest, ∃ j, r'.id = some j ∧ r'.name ≠ "" ∧
        ∀ p ∈ m ++ [(i, r.name)], p.1 ≠ j := by
      intro r' hr'
      obtain ⟨j, hjid, hjname, hjfresh⟩ := h r' (List.mem_cons_of_mem r hr')
      refine ⟨j, hjid, hjname, fun p hp => ?_⟩
      rcases List.mem_append.mp hp with hp | hp
      · exact hjfresh p hp
      · simp only [List.mem_singleton] at hp
        subst hp
        show i ≠ j
        intro hcontra
        apply hhead
        exact List.mem_map.mpr ⟨r', hr', by rw [hjid, ← hcontra]⟩
    rw [ih (m ++ [(i, r.name)]) h' hnodup']
    simp only [List.length_append, List.length_cons, List.length_nil]
    omega

lemma load_departments_w_eq (rows : List DeptRow) :
    load_departments_w rows = (load_departments rows, 0) := by
  unfold load_departments_w load_departments
  have hpair : ∀ (l : List DeptRow) (m : List (Int × String)) (w : Nat),
      l.foldl deptStepW (m, w) = (l.foldl deptStep m, w) := by
    intro l
    induction l with
    | nil => intro m w; rfl
    | cons r rest ih =>
      intro m w
      simp only [List.foldl_cons, deptStepW, ih]
  exact hpair rows [] 0

lemma csv_load_aux : ∀ (rows : List CsvDeptRow) (acc : List (ℚ × String) × Nat),
    (rows.foldl csvDeptStep acc).1.length =
      acc.1.length + rows.countP (fun r => r.id.isSome) ∧
    (rows.foldl csvDeptStep acc).2 =
      acc.2 + rows.countP (fun r => r.id.isNone) := by
  intro rows
  induction rows with
  | nil => intro acc; simp
  | cons r rest ih =>
    intro acc
    cases hid : r.id with
    | some q =>
      have hstep : csvDeptStep acc r = (acc.1 ++ [(q, r.name)], acc.2) := by
        unfold csvDeptStep; rw [hid]
      simp only [List.foldl_cons, hstep, List.countP_cons, hid]
      have := ih (acc.1 ++ [(q, r.name)], acc.2)
      simp only [this.1, this.2]
      simp [Option.isSome, Option.isNone]
      omega
    | none =>
      have hstep : csvDeptStep acc r = (acc.1, acc.2 + 1) := by
        unfold csvDeptStep; rw [hid]
      simp only [List.foldl_cons, hstep, List.countP_cons, hid]
      have := ih (acc.1, acc.2 + 1)
      simp only [this.1, this.2]
      simp [Option.isSome, Option.isNone]
      omega

end FreshDesk

namespace FreshDesk

/-- C8 counterexample to the claim as frozen: on a table of two valid rows
around one malformed row, the script-side `load_departments` cited by the
claim logs zero warnings for the bad row, not one (its row loop skips the
row silently); and without the data model's id-uniqueness invariant the
"exactly N entries" part fails too, since two valid rows sharing id 1
collapse to a single dict entry. -/
theorem C8_malformed_row_resilience_counterexample :
    (load_departments_w [⟨some 1, "IT"⟩, ⟨none, "Bad"⟩, ⟨some 2, "HR"⟩]).2 = 0 ∧
    ¬ (load_departments_w [⟨some 1, "IT"⟩, ⟨none, "Bad"⟩, ⟨some 2, "HR"⟩]).2 = 1 ∧
    (load_departments [⟨some 1, "IT"⟩, ⟨none, "Bad"⟩, ⟨some 1, "HR"⟩]).length = 1 ∧
    ¬ (load_departments [⟨some 1, "IT"⟩, ⟨none, "Bad"⟩, ⟨some 1, "HR"⟩]).length = 2 := by
  decide

/-- C8 as amended: malformed-row resilience of the department loaders.  For
a source table of N valid rows (ID and Name present, ID parsing) with
pairwise distinct ids — uniqueness of the id being the data model's stated
invariant — plus one malformed row anywhere in the table: the script-side
`load_departments` yields a dict of exactly N entries and skips the
malformed row silently (zero warnings logged, not one), while the
`CSVLoader.load_departments` variant yields exactly N entries with exactly
one warning logged; both are total functions, so neither raises and loading
continues past the malformed row. -/
theorem C8_malformed_row_resilience
    (pre post : List DeptRow) (bad : DeptRow)
    (cpre cpost : List CsvDeptRow) (cbad : CsvDeptRow)
    (hvalid : ∀ r ∈ pre ++ post, r.id.isSome ∧ r.name ≠ "")
    (hnodup : ((pre ++ post).map (fun r => r.id)).Nodup)
    (hbad : bad.id = none ∨ bad.name = "")
    (hcvalid : ∀ r ∈ cpre ++ cpost, r.id.isSome)
    (hcbad : cbad.id = none) :
    (load_departments (pre ++ [bad] ++ post)).length = (pre ++ post).length ∧
    (load_departments_w (pre ++ [bad] ++ post)).2 = 0 ∧
    (CSVLoader_load_departments (cpre ++ [cbad] ++ cpost)).1.length =
      (cpre ++ cpost).length ∧
    (CSVLoader_load_departments (cpre ++ [cbad] ++ cpost)).2 = 1 := by
  refine ⟨?_, ?_, ?_, ?_⟩
  case refine_2 => rw [load_departments_w_eq]
  · have hskip : load_departments (pre ++ [bad] ++ post) =
        load_departments (pre ++ post) := by
      unfold load_departments
      rw [List.foldl_append, List.foldl_append, List.foldl_append]
      simp only [List.foldl_cons, List.foldl_nil]
      rw [deptStep_bad _ bad hbad]
    rw [hskip]
    unfold load_departments
    have := load_valid_aux (pre ++ post) []
      (fun r hr => by
        obtain ⟨hs, hn⟩ := hvalid r hr
        obtain ⟨i, hi⟩ := Option.isSome_iff_exists.mp hs
        exact ⟨i, hi, hn, by simp⟩) hnodup
    simpa using this
  · unfold CSVLoader_load_departments
    have := csv_load_aux (cpre ++ [cbad] ++ cpost) ([], 0)
    rw [this.1]
    have hcount : (cpre ++ [cbad] ++ cpost).countP (fun r => r.id.isSome) =
        (cpre ++ cpost).length := by
      simp only [List.countP_append, List.countP_cons, List.countP_nil, hcbad]
      rw [List.countP_eq_length.mpr (fun r hr => hcvalid r (by simp [hr])),
        List.countP_eq_length.mpr (fun r hr => hcvalid r (by simp [hr]))]
      simp [Option.isSome]
    rw [hcount]
    simp
  · unfold CSVLoader_load_departments
    have := csv_load_aux (cpre ++ [cbad] ++ cpost) ([], 0)
    rw [this.2]
    have hzero : ∀ l : List CsvDeptRow, (∀ r ∈ l, r.id.isSome) →
        l.countP (fun r => r.id.isNone) = 0 := by
      intro l hl
      rw [List.countP_eq_zero]
      intro r hr
      have := hl r hr
      simp [Option.isNone_iff_eq_none]
      intro hcontra
      rw [hcontra] at this
      simp at this
    simp only [List.countP_append, List.countP_cons, List.countP_nil, hcbad]
    rw [hzero cpre (fun r hr => hcvalid r (by simp [hr])),
      hzero cpost (fun r hr => hcvalid r (by simp [hr]))]
    simp [Option.isNone]

/-- Witness for C8 as amended: two valid department rows around one
malformed row (for each loader variant). -/
theorem C8_malformed_row_resilience_witness :
    ((∀ r ∈ ([⟨some 1, "IT"⟩] ++ [⟨some 2, "HR"⟩] : List DeptRow),
        r.id.isSome ∧ r.name ≠ "") ∧
      ((([⟨some 1, "IT"⟩] ++ [⟨some 2, "HR"⟩] : List DeptRow)).map
        (fun r => r.id)).Nodup ∧
      ((⟨none, "Bad"⟩ : DeptRow).id = none ∨ (⟨none, "Bad"⟩ : DeptRow).name = "") ∧
      (∀ r ∈ ([⟨some 1, "IT"⟩] ++ [⟨some 2, "HR"⟩] : List CsvDeptRow), r.id.isSome) ∧
      (⟨none, "Bad"⟩ : CsvDeptRow).id = none) ∧
    ((load_departments ([⟨some 1, "IT"⟩] ++ [⟨none, "Bad"⟩] ++ [⟨some 2, "HR"⟩])).length =
        ([⟨some 1, "IT"⟩] ++ [⟨some 2, "HR"⟩] : List DeptRow).length ∧
      (load_departments_w
          ([⟨some 1, "IT"⟩] ++ [⟨none, "Bad"⟩] ++ [⟨some 2, "HR"⟩])).2 = 0 ∧
      (CSVLoader_load_departments
          ([⟨some 1, "IT"⟩] ++ [⟨none, "Bad"⟩] ++ [⟨some 2, "HR"⟩])).1.length =
        ([⟨some 1, "IT"⟩] ++ [⟨some 2, "HR"⟩] : List CsvDeptRow).length ∧
      (CSVLoader_load_departments
          ([⟨some 1, "IT"⟩] ++ [⟨none, "Bad"⟩] ++ [⟨some 2, "HR"⟩])).2 = 1) := by
  refine ⟨⟨by decide, by decide, by decide, by decide, by decide⟩, ?_⟩
  exact C8_malformed_row_resilience [⟨some 1, "IT"⟩] [⟨some 2, "HR"⟩] ⟨none, "Bad"⟩
    [⟨some 1, "IT"⟩] [⟨some 2, "HR"⟩] ⟨none, "Bad"⟩
    (by decide) (by decide) (by decide) (by decide) (by decide)

end FreshDesk

namespace FreshDesk

/-- One incident as consumed by `calculate_metrics` in
`incident_dashboard.py`: `status` and `priority` are the optional integer
fields (`none` when absent), and `created_at`/`updated_at` are the parsed
timestamps in seconds (`none` when the field is absent, empty, or
`datetime.fromisoformat` would raise). -/
structure Incident where
  status : Option Int
  priority : Option Int
  created_at : Option ℚ
  updated_at : Option ℚ
deriving DecidableEq, Repr

/-- `calculate_resolution_time(incident)` from `incident_dashboard.py`
(lines 226-254): `None` unless the status is 4 (Resolved) or 5 (Closed)
and both timestamps are present and parse; otherwise the difference in
hours. -/
def calculate_resolution_time (incident : Incident) : Option ℚ :=
  if incident.status = some 4 ∨ incident.status = some 5 then
    match incident.created_at, incident.updated_at with
    | some c, some u => some ((u - c) / 3600)
    | _, _ => none
  else none

/-- The metrics dictionary built by `calculate_metrics` in
`incident_dashboard.py` (lines 257-323). -/
structure Metrics where
  total_incidents : Nat
  tickets_raised : Nat
  completed_tickets : Nat
  in_progress : Nat
  high_priority : Nat
  medium_priority : Nat
  low_priority : Nat
  urgent_priority : Nat
  avg_resolution_time : Option ℚ
  longest_resolution_time : Option ℚ
  shortest_resolution_time : Option ℚ
  resolution_times : List ℚ
deriving DecidableEq, Repr

/-- The body of the `for incident in incidents` loop of `calculate_metrics`
(lines 283-311 of `incident_dashboard.py`), threading the metrics dict and
the local `resolution_times` list. -/
def metricsStep (acc : Metrics × List ℚ) (incident : Incident) :
    Metrics × List ℚ :=
  let m := acc.1
  let m := { m with tickets_raised := m.tickets_raised + 1 }
  let m := if incident.status = some 4 ∨ incident.status = some 5 then
      { m with completed_tickets := m.completed_tickets + 1 } else m
  let m := if incident.status = some 2 ∨ incident.status = some 3 then
      { m with in_progress := m.in_progress + 1 } else m
  let m := if incident.priority = some 1 then
      { m with low_priority := m.low_priority + 1 }
    else if incident.priority = some 2 then
      { m with medium_priority := m.medium_priority + 1 }
    else if incident.priority = some 3 then
      { m with high_priority := m.high_priority + 1 }
    else if incident.priority = some 4 then
      { m with urgent_priority := m.urgent_priority + 1 }
    else m
  let rts := match calculate_resolution_time incident with
    | some t => acc.2 ++ [t]
    | none => acc.2
  (m, rts)

/-- The initial metrics dict of `calculate_metrics` (lines 266-278 of
`incident_dashboard.py`): `total_incidents = len(incidents)`, zeroed
counters, `None` aggregates, empty resolution-time list. -/
def initMetrics (incidents : List Incident) : Metrics := {
  total_incidents := incidents.length
  tickets_raised := 0
  completed_tickets := 0
  in_progress := 0
  high_priority := 0
  medium_priority := 0
  low_priority := 0
  urgent_priority := 0
  avg_resolution_time := none
  longest_resolution_time := none
  shortest_resolution_time := none
  resolution_times := [] }

/-- `calculate_metrics(incidents)` from `incident_dashboard.py` (lines
257-323): starts from the initial dict, folds the loop body over the
incidents, then fills in the resolution-time aggregates when the collected
list is non-empty. -/
def calculate_metrics (incidents : List Incident) : Metrics :=
  let res := incidents.foldl metricsStep (initMetrics incidents, [])
  match res.2 with
  | [] => res.1
  | t :: ts =>
    { res.1 with
      avg_resolution_time := some ((t :: ts).sum / (t :: ts).length)
      longest_resolution_time := some (ts.foldl max t)
      shortest_resolution_time := some (ts.foldl min t)
      resolution_times := t :: ts }

lemma metricsStep_counts (acc : Metrics × List ℚ) (i : Incident) :
    (metricsStep acc i).1.total_incidents = acc.1.total_incidents ∧
    (metricsStep acc i).1.tickets_raised = acc.1.tickets_raised + 1 ∧
    (metricsStep acc i).1.completed_tickets + (metricsStep acc i).1.in_progress ≤
      acc.1.completed_tickets + acc.1.in_progress + 1 ∧
    (metricsStep acc i).1.low_priority + (metricsStep acc i).1.medium_priority +
        (metricsStep acc i).1.high_priority + (metricsStep acc i).1.urgent_priority ≤
      acc.1.low_priority + acc.1.medium_priority + acc.1.high_priority +
        acc.1.urgent_priority + 1 := by
  unfold metricsStep
  by_cases h45 : i.status = some 4 ∨ i.status = some 5 <;>
    by_cases h23 : i.status = some 2 ∨ i.status = some 3
  · exfalso
    rcases h45 with h | h <;> rcases h23 with h' | h' <;> rw [h] at h' <;> simp at h'
  all_goals (
    by_cases hp1 : i.priority = some 1 <;>
      by_cases hp2 : i.priority = some 2 <;>
      by_cases hp3 : i.priority = some 3 <;>
      by_cases hp4 : i.priority = some 4 <;>
    simp only [h45, h23, hp1, hp2, hp3, hp4, if_true, if_false] <;>
    simp <;>
    omega)

end FreshDesk

namespace FreshDesk

lemma foldl_metricsStep : ∀ (l : List Incident) (acc : Metrics × List ℚ),
    (l.foldl metricsStep acc).1.total_incidents = acc.1.total_incidents ∧
    (l.foldl metricsStep acc).1.tickets_raised = acc.1.tickets_raised + l.length ∧
    (l.foldl metricsStep acc).1.completed_tickets +
        (l.foldl metricsStep acc).1.in_progress ≤
      acc.1.completed_tickets + acc.1.in_progress + l.length ∧
    (l.foldl metricsStep acc).1.low_priority +
        (l.foldl metricsStep acc).1.medium_priority +
        (l.foldl metricsStep acc).1.high_priority +
        (l.foldl metricsStep acc).1.urgent_priority ≤
      acc.1.low_priority + acc.1.medium_priority + acc.1.high_priority +
        acc.1.urgent_priority + l.length := by
  intro l
  induction l with
  | nil => intro acc; simp
  | cons i rest ih =>
    intro acc
    have hstep := metricsStep_counts acc i
    have htail := ih (metricsStep acc i)
    simp only [List.foldl_cons, List.length_cons]
    omega

lemma calculate_metrics_counters (incidents : List Incident) :
    (calculate_metrics incidents).total_incidents =
      (incidents.foldl metricsStep (initMetrics incidents, [])).1.total_incidents ∧
    (calculate_metrics incidents).tickets_raised =
      (incidents.foldl metricsStep (initMetrics incidents, [])).1.tickets_raised ∧
    (calculate_metrics incidents).completed_tickets =
      (incidents.foldl metricsStep (initMetrics incidents, [])).1.completed_tickets ∧
    (calculate_metrics incidents).in_progress =
      (incidents.foldl metricsStep (initMetrics incidents, [])).1.in_progress ∧
    (calculate_metrics incidents).low_priority =
      (incidents.foldl metricsStep (initMetrics incidents, [])).1.low_priority ∧
    (calculate_metrics incidents).medium_priority =
      (incidents.foldl metricsStep (initMetrics incidents, [])).1.medium_priority ∧
    (calculate_metrics incidents).high_priority =
      (incidents.foldl metricsStep (initMetrics incidents, [])).1.high_priority ∧
    (calculate_metrics incidents).urgent_priority =
      (incidents.foldl metricsStep (initMetrics incidents, [])).1.urgent_priority := by
  unfold calculate_metrics
  cases h : (incidents.foldl metricsStep (initMetrics incidents, [])).2 with
  | nil => simp [h]
  | cons t ts => simp [h]

end FreshDesk

namespace FreshDesk

/-- C10: for every incident list, `calculate_metrics` returns a dict with
`total_incidents = tickets_raised = len(incidents)`,
`completed_tickets + in_progress ≤ total_incidents` (a status outside
`{2, 3, 4, 5}` is counted in the total but in neither bucket), and
`low_priority + medium_priority + high_priority + urgent_priority ≤
total_incidents`. -/
theorem C10_metrics_invariants (incidents : List Incident) :
    (calculate_metrics incidents).total_incidents = incidents.length ∧
    (calculate_metrics incidents).tickets_raised = incidents.length ∧
    (calculate_metrics incidents).completed_tickets +
        (calculate_metrics incidents).in_progress ≤
      (calculate_metrics incidents).total_incidents ∧
    (calculate_metrics incidents).low_priority +
        (calculate_metrics incidents).medium_priority +
        (calculate_metrics incidents).high_priority +
        (calculate_metrics incidents).urgent_priority ≤
      (calculate_metrics incidents).total_incidents := by
  have hfold := foldl_metricsStep incidents (initMetrics incidents, [])
  have hcm := calculate_metrics_counters incidents
  simp only [initMetrics] at hfold hcm
  omega

/-- Witness for C10 at a concrete input: one resolved incident, one open
incident, one incident with an unknown status and priority. -/
theorem C10_metrics_invariants_witness :
    (calculate_metrics [⟨some 4, some 1, some 0, some 7200⟩,
        ⟨some 2, some 3, none, none⟩,
        ⟨some 9, some 9, none, none⟩]).total_incidents = 3 ∧
    (calculate_metrics [⟨some 4, some 1, some 0, some 7200⟩,
        ⟨some 2, some 3, none, none⟩,
        ⟨some 9, some 9, none, none⟩]).tickets_raised = 3 := by
  have h := C10_metrics_invariants [⟨some 4, some 1, some 0, some 7200⟩,
    ⟨some 2, some 3, none, none⟩, ⟨some 9, some 9, none, none⟩]
  exact ⟨h.1, h.2.1⟩

end FreshDesk
